import Mathlib

/-!
Shallow embedding of the two HTTP service facades of this repository:

* `src/colqwen2/docker/server.py` — ColQwen2 visual embedding service
* `src/rag-anything/docker/server.py` — RAG-Anything document service

External effects (base64+PIL decoding, model inference, the RAG library,
the OpenAI-compatible embeddings endpoint, uuid generation, timestamps and
the filesystem) are modelled as explicit parameters or oracle functions,
so every handler becomes a pure function from its inputs and the relevant
global state to its HTTP result (and, where it mutates state, the new state).
-/

namespace LocalaiRag

/-- Python exceptions that the colqwen2 handlers distinguish in their
`except` clauses: `ValueError` (raised by `decode_image`), `RuntimeError`
(raised by `embed_image` when model or processor is `None`), and any other
exception (e.g. raised inside the model inference call). -/
inductive PyExc where
  | valueError (msg : String)
  | runtimeError (msg : String)
  | otherExc (msg : String)
deriving DecidableEq, Repr

/-- The error taxonomy of both servers, one constructor per HTTP status
code used by `HTTPException` in the source: 400, 503, 404, 500. -/
inductive ApiError where
  | invalidInput (detail : String)
  | serviceUnavailable (detail : String)
  | notFound (detail : String)
  | internal (detail : String)
deriving DecidableEq, Repr

/-- Global state and external environment of the colqwen2 server
(`src/colqwen2/docker/server.py`).  `modelSome` / `processorSome` record
whether the globals `model` / `processor` are not `None`; `decode` is the
external base64+PIL pipeline (`base64.b64decode`, `Image.open`,
`convert("RGB")`), returning the exception text on failure; `runModel` is
the external inference computation of `embed_image`
(`processor.process_images`, `model(**inputs)`, mean pooling), which may
also raise.  `F` is the scalar type of embedding entries, `Img` the type
of decoded images. -/
structure ColServer (Img F : Type) where
  modelSome : Bool
  processorSome : Bool
  gpuAvailable : Bool
  deviceName : Option String
  decode : String → Except String Img
  runModel : Img → Except String (List F)

variable {Img F : Type}

/-- `decode_image` (server.py:127-134): run the external decode pipeline;
any exception is re-raised as `ValueError(f"Invalid image data: {e}")`. -/
def decode_image (srv : ColServer Img F) (b64 : String) : Except PyExc Img :=
  match srv.decode b64 with
  | .ok image => .ok image
  | .error e => .error (.valueError ("Invalid image data: " ++ e))

/-- `embed_image` (server.py:137-148): raises `RuntimeError("Model not
loaded")` when `model is None or processor is None`; otherwise runs the
inference computation, whose own exceptions propagate. -/
def embed_image (srv : ColServer Img F) (image : Img) : Except PyExc (List F) :=
  if !srv.modelSome || !srv.processorSome then
    .error (.runtimeError "Model not loaded")
  else
    match srv.runModel image with
    | .ok v => .ok v
    | .error e => .error (.otherExc e)

/-- Response model of `GET /health` (server.py:63-68). -/
structure HealthResponse where
  status : String
  gpu_available : Bool
  model_loaded : Bool
  model_name : String
  device : String
deriving DecidableEq, Repr

/-- `health_check` (server.py:169-181): `model_loaded` is
`model is not None and processor is not None`. -/
def health_check (srv : ColServer Img F) (modelName : String) : HealthResponse :=
  let model_loaded := srv.modelSome && srv.processorSome
  { status := if model_loaded then "healthy" else "degraded"
    gpu_available := srv.gpuAvailable
    model_loaded := model_loaded
    model_name := modelName
    device := match srv.deviceName with
      | some d => d
      | none => "none" }

/-- The `except ValueError ... except Exception ...` clauses shared by the
`embed` and `embed_batch` handlers: `ValueError` becomes HTTP 400 with the
exception text, any other exception becomes HTTP 500. -/
def excToHttp : PyExc → ApiError
  | .valueError m => .invalidInput m
  | .runtimeError m => .internal m
  | .otherExc m => .internal m

/-- Response model of `POST /embed` (server.py:52-54). -/
structure EmbedResponse (F : Type) where
  embedding : List F
  dim : Nat
deriving DecidableEq, Repr

/-- `embed` handler (server.py:184-202): 503 when `model is None` (note:
the `processor` global is not checked here), else decode then embed, with
the shared exception-to-HTTP mapping. -/
def embed (srv : ColServer Img F) (image : String) :
    Except ApiError (EmbedResponse F) :=
  if !srv.modelSome then .error (.serviceUnavailable "Model not loaded")
  else
    match (decode_image srv image).bind (embed_image srv) with
    | .ok emb => .ok { embedding := emb, dim := emb.length }
    | .error e => .error (excToHttp e)

/-- The `for img_b64 in request.images` loop body of `embed_batch`
(server.py:212-216): images are decoded and embedded in input order, and
the first exception aborts the loop, discarding accumulated results. -/
def embedBatchLoop (srv : ColServer Img F) :
    List String → Except PyExc (List (List F))
  | [] => .ok []
  | b64 :: rest => do
    let image ← decode_image srv b64
    let embedding ← embed_image srv image
    let tail ← embedBatchLoop srv rest
    pure (embedding :: tail)

/-- Response model of `POST /embed_batch` (server.py:57-60). -/
structure EmbedBatchResponse (F : Type) where
  embeddings : List (List F)
  count : Nat
  dim : Nat
deriving DecidableEq, Repr

/-- `embed_batch` handler (server.py:205-227): 503 when `model is None`,
else the loop; `count = len(embeddings)` and
`dim = len(embeddings[0]) if embeddings else 0`. -/
def embed_batch (srv : ColServer Img F) (images : List String) :
    Except ApiError (EmbedBatchResponse F) :=
  if !srv.modelSome then .error (.serviceUnavailable "Model not loaded")
  else
    match embedBatchLoop srv images with
    | .ok embs =>
      .ok { embeddings := embs
            count := embs.length
            dim := match embs with
              | [] => 0
              | e0 :: _ => e0.length }
    | .error e => .error (excToHttp e)

/-- One decode-then-embed step of the batch loop, i.e. the effect of the
`embed` body on a single image. -/
def embedOne (srv : ColServer Img F) (b64 : String) : Except PyExc (List F) :=
  (decode_image srv b64).bind (embed_image srv)

/-!
## RAG-Anything server (`src/rag-anything/docker/server.py`)
-/

/-- The `DocumentStatus` pydantic model (server.py:56-62).  `progress` is a
Python float but the code only ever assigns the literals 0.0, 0.1 and 1.0,
so it embeds exactly as a rational. -/
structure DocumentStatus where
  document_id : String
  filename : String
  status : String
  progress : Rat
  error : Option String := none
  created_at : String
deriving DecidableEq, Repr

/-- The global `processing_status` dict, keyed by document id. -/
def StatusMap : Type := String → Option DocumentStatus

/-- `processing_status[doc_id] = v` for a possibly-new key. -/
def mapInsert (m : StatusMap) (k : String) (v : DocumentStatus) : StatusMap :=
  fun q => if q = k then some v else m q

/-- `del processing_status[doc_id]`. -/
def mapErase (m : StatusMap) (k : String) : StatusMap :=
  fun q => if q = k then none else m q

/-- A field assignment `processing_status[doc_id].field = v` on an existing
record (the key is present whenever the source performs it). -/
def mapSet (m : StatusMap) (k : String) (f : DocumentStatus → DocumentStatus) :
    StatusMap :=
  fun q => if q = k then (m k).map f else m q

/-- The filesystem as a predicate on paths: `fs p = true` iff the
directory/file `p` exists. -/
def FileSys : Type := String → Bool

/-- `mkdir`/file creation. -/
def fsAdd (fs : FileSys) (p : String) : FileSys :=
  fun q => if q = p then true else fs q

/-- `shutil.rmtree` at the granularity of the per-document directories the
server creates. -/
def fsRemove (fs : FileSys) (p : String) : FileSys :=
  fun q => if q = p then false else fs q

/-- The mutable state the RAG server's handlers touch: the
`processing_status` dict and the filesystem. -/
structure RagState where
  processing_status : StatusMap
  fs : FileSys

/-- Static context of the RAG server: whether the global `rag_instance` is
not `None`, and the two directory roots from `config.py`
(`documents_dir`, default `/data/documents`; `working_dir`, default
`/data/rag`). -/
structure RagCtx where
  ragInitialized : Bool
  documents_dir : String
  working_dir : String

/-- `Path(config.documents_dir) / doc_id` — the upload directory. -/
def docDir (ctx : RagCtx) (doc_id : String) : String :=
  ctx.documents_dir ++ "/" ++ doc_id

/-- `Path(config.working_dir) / doc_id` — the working-directory output. -/
def outputDir (ctx : RagCtx) (doc_id : String) : String :=
  ctx.working_dir ++ "/" ++ doc_id

/-- The JSON body `upload_document` returns (server.py:293). -/
structure UploadResponse where
  document_id : String
  status : String
deriving DecidableEq, Repr

/-- `upload_document` handler (server.py:260-293).  The generated
`uuid.uuid4()` and the `datetime.utcnow().isoformat()` timestamp enter as
the parameters `doc_id` and `now`; `filename` and the file bytes come from
the multipart upload (the bytes only touch the filesystem, so only the
written path is tracked).  Returns the new state, the background tasks
scheduled via `background_tasks.add_task` (argument pairs of
`process_document`), and the HTTP result.  The handler returns as soon as
the task is scheduled — the scheduled task has not run in the returned
state. -/
def upload_document (ctx : RagCtx) (st : RagState)
    (doc_id filename now : String) :
    RagState × List (String × String) × Except ApiError UploadResponse :=
  if !ctx.ragInitialized then
    (st, [], .error (.serviceUnavailable "RAG not initialized"))
  else
    let file_path := docDir ctx doc_id ++ "/" ++ filename
    let fs1 := fsAdd (fsAdd st.fs (docDir ctx doc_id)) file_path
    let rec0 : DocumentStatus :=
      { document_id := doc_id
        filename := filename
        status := "pending"
        progress := 0
        created_at := now }
    let st1 : RagState :=
      { processing_status := mapInsert st.processing_status doc_id rec0
        fs := fs1 }
    (st1, [(doc_id, file_path)], .ok ⟨doc_id, "processing"⟩)

/-- Outcome of the external call
`rag_instance.process_document_complete(...)`: normal return, or an
exception whose `str(e)` is `msg`. -/
inductive ProcOutcome where
  | ok
  | raise (msg : String)
deriving DecidableEq, Repr

/-- The first two statements of the `try` block of `process_document`
(server.py:299-300): `processing_status[doc_id].status = "processing"`
followed by `processing_status[doc_id].progress = 0.1`. -/
def processBegin (m : StatusMap) (doc_id : String) : StatusMap :=
  mapSet (mapSet m doc_id (fun r => { r with status := "processing" }))
    doc_id (fun r => { r with progress := 1/10 })

/-- `process_document` background task (server.py:296-318).  When the id
is untracked the very first statement raises `KeyError`, the `except`
block raises `KeyError` again and the state is left unchanged; otherwise
after `processBegin` the output directory is created
(`mkdir(exist_ok=True)`, modelled as succeeding) and the outcome of the
external `rag_instance.process_document_complete` call decides between
`completed` / progress 1.0 and `failed` with `error = str(e)`. -/
def process_document (ctx : RagCtx) (st : RagState)
    (doc_id : String) (outcome : ProcOutcome) : RagState :=
  match st.processing_status doc_id with
  | none => st
  | some _ =>
    let m2 := processBegin st.processing_status doc_id
    let fs1 := fsAdd st.fs (outputDir ctx doc_id)
    match outcome with
    | .ok =>
      let m3 := mapSet m2 doc_id (fun r => { r with status := "completed" })
      let m4 := mapSet m3 doc_id (fun r => { r with progress := 1 })
      { processing_status := m4, fs := fs1 }
    | .raise msg =>
      let m3 := mapSet m2 doc_id (fun r => { r with status := "failed" })
      let m4 := mapSet m3 doc_id (fun r => { r with error := some msg })
      { processing_status := m4, fs := fs1 }

/-- `get_document_status` handler (server.py:321-326): 404 when the id is
not in `processing_status`, else the record. -/
def get_document_status (st : RagState) (doc_id : String) :
    Except ApiError DocumentStatus :=
  match st.processing_status doc_id with
  | none => .error (.notFound "Document not found")
  | some r => .ok r

/-- The JSON body `delete_document` returns (server.py:351). -/
structure DeleteResponse where
  status : String
deriving DecidableEq, Repr

/-- `delete_document` handler (server.py:335-351): 404 when the id is
unknown (the state untouched); otherwise remove the upload directory and
the working-directory output if they exist, then delete the status
record. -/
def delete_document (ctx : RagCtx) (st : RagState) (doc_id : String) :
    RagState × Except ApiError DeleteResponse :=
  match st.processing_status doc_id with
  | none => (st, .error (.notFound "Document not found"))
  | some _ =>
    let fs1 := if st.fs (docDir ctx doc_id)
      then fsRemove st.fs (docDir ctx doc_id) else st.fs
    let fs2 := if fs1 (outputDir ctx doc_id)
      then fsRemove fs1 (outputDir ctx doc_id) else fs1
    ({ processing_status := mapErase st.processing_status doc_id, fs := fs2 },
     .ok ⟨"deleted"⟩)

/-- A Python value returned by the external `aquery` /
`aquery_with_multimodal` calls: a plain string, or a dict whose
`get("answer", str(result))` is modelled by the optional `answer` and the
`str(result)` fallback `reprStr`. -/
inductive PyValue where
  | str (s : String)
  | dict (answer : Option String) (reprStr : String)
deriving DecidableEq, Repr

/-- `result if isinstance(result, str) else result.get("answer",
str(result))` (server.py:395). -/
def answerOf : PyValue → String
  | .str s => s
  | .dict (some a) _ => a
  | .dict none r => r

/-- `QueryRequest` pydantic model (server.py:36-40). -/
structure QueryRequest where
  query : String
  mode : String := "hybrid"
  multimodal : Bool := false
  top_k : Nat := 5
deriving DecidableEq, Repr

/-- `QueryResponse` pydantic model (server.py:43-47); `sources` holds
opaque dicts, modelled as strings. -/
structure QueryResponse where
  answer : String
  sources : List String := []
  mode : String
  processing_time : Rat
deriving DecidableEq, Repr

/-- The two external retrieval entry points the `query` handler can call,
each taking the query text and the mode and either returning a value or
raising. -/
structure RagQueryEnv where
  aquery : String → String → Except String PyValue
  aquery_with_multimodal : String → String → Except String PyValue

/-- The `if request.multimodal: ... else: ...` dispatch of the `query`
handler (server.py:381-390), selecting one of the two external retrieval
calls. -/
def queryDispatch (env : RagQueryEnv) (req : QueryRequest) :
    Except String PyValue :=
  if req.multimodal then env.aquery_with_multimodal req.query req.mode
  else env.aquery req.query req.mode

/-- `query` handler (server.py:372-403): 503 when `rag_instance is None`;
dispatch on `request.multimodal` to one of the two external calls; shape
the response with `sources=[]`; any exception becomes HTTP 500.  `elapsed`
is the measured wall-clock `processing_time`. -/
def query (env : RagQueryEnv) (ragInitialized : Bool) (req : QueryRequest)
    (elapsed : Rat) : Except ApiError QueryResponse :=
  if !ragInitialized then .error (.serviceUnavailable "RAG not initialized")
  else
    match queryDispatch env req with
    | .ok r =>
      .ok { answer := answerOf r
            sources := []
            mode := req.mode
            processing_time := elapsed }
    | .error e => .error (.internal e)

/-- The batches the `embedding_func` loop (server.py:140-149) forms:
`texts[i:i+32]` for `i in range(0, len(texts), 32)`, written as repeated
take/drop of 32 elements. -/
def embBatches : List String → List (List String)
  | [] => []
  | t :: ts => (t :: ts).take 32 :: embBatches ((t :: ts).drop 32)
termination_by l => l.length
decreasing_by
  simp [List.length_drop]
  omega

/-- `embedding_func` (server.py:132-154): slice the texts into groups of
32, dispatch one embeddings request per group in order (`dispatch` is the
external `client.embeddings.create` call returning the embeddings of
`response.data`), and `extend` the accumulated list with each group's
result; an exception in any dispatch propagates. -/
def embedding_func {E : Type} (dispatch : List String → Except String (List E)) :
    List String → Except String (List E)
  | [] => .ok []
  | t :: ts => do
    let batchEmb ← dispatch ((t :: ts).take 32)
    let restEmb ← embedding_func dispatch ((t :: ts).drop 32)
    pure (batchEmb ++ restEmb)
termination_by l => l.length
decreasing_by
  simp [List.length_drop]
  omega

/-!
## Concrete instances used to evaluate the handlers on closed inputs
-/

/-- A fully loaded colqwen2 server over `Img := Unit`, `F := Nat`: every
base64 string except `"bad"` decodes, and inference returns `[1, 2]`. -/
def srvLoaded : ColServer Unit Nat :=
  { modelSome := true
    processorSome := true
    gpuAvailable := false
    deviceName := some "cpu"
    decode := fun s => if s = "bad" then .error "broken" else .ok ()
    runModel := fun _ => .ok [1, 2] }

/-- The colqwen2 server after a startup where the model was assigned but
loading the processor failed: `model is not None`, `processor is None`. -/
def srvHalfLoaded : ColServer Unit Nat :=
  { modelSome := true
    processorSome := false
    gpuAvailable := false
    deviceName := some "cpu"
    decode := fun s => if s = "bad" then .error "broken" else .ok ()
    runModel := fun _ => .ok [1, 2] }

/-- The colqwen2 server before any model was assigned. -/
def srvUnloaded : ColServer Unit Nat :=
  { modelSome := false
    processorSome := false
    gpuAvailable := false
    deviceName := none
    decode := fun s => if s = "bad" then .error "broken" else .ok ()
    runModel := fun _ => .ok [1, 2] }

/-- The default directory roots of `config.py`, with the RAG engine
initialized. -/
def ctx0 : RagCtx :=
  { ragInitialized := true
    documents_dir := "/data/documents"
    working_dir := "/data/rag" }

/-- A status record as `upload_document` creates it. -/
def recPending : DocumentStatus :=
  { document_id := "d1"
    filename := "a.pdf"
    status := "pending"
    progress := 0
    created_at := "t0" }

/-- A one-document state: `"d1"` tracked as pending, with its upload
directory and uploaded file on disk. -/
def stOne : RagState :=
  { processing_status := fun q => if q = "d1" then some recPending else none
    fs := fun q =>
      if q = "/data/documents/d1" then true
      else if q = "/data/documents/d1/a.pdf" then true
      else false }

/-- The empty state: no documents tracked, nothing on disk. -/
def stEmpty : RagState :=
  { processing_status := fun _ => none
    fs := fun _ => false }

/-- A retrieval environment whose non-multimodal path answers `"ans"` and
whose multimodal path answers with a dict carrying `"mmans"`. -/
def envQ : RagQueryEnv :=
  { aquery := fun _ _ => .ok (.str "ans")
    aquery_with_multimodal := fun _ _ => .ok (.dict (some "mmans") "r") }

/-- An embeddings endpoint returning one constant embedding per input
text. -/
def dispatchConst : List String → Except String (List Nat) :=
  fun batch => .ok (batch.map (fun _ => 7))

/-!
## Helper lemmas
-/

theorem exBindDef {ε α β : Type} (x : Except ε α) (f : α → Except ε β) :
    Bind.bind x f = Except.bind x f := rfl

theorem exPureDef {ε α : Type} (a : α) :
    (Pure.pure a : Except ε α) = Except.ok a := rfl

theorem exBindOk {ε α β : Type} (a : α) (f : α → Except ε β) :
    Except.bind (Except.ok a) f = f a := rfl

theorem exBindErr {ε α β : Type} (e : ε) (f : α → Except ε β) :
    Except.bind (Except.error e) f = Except.error e := rfl

theorem fsRemove_self (fs : FileSys) (p : String) : fsRemove fs p p = false := by
  simp [fsRemove]

/-- The `if dir.exists(): shutil.rmtree(dir)` pattern leaves the removed
path absent. -/
theorem fsCondRemove_self (fs : FileSys) (p : String) :
    (if fs p then fsRemove fs p else fs) p = false := by
  by_cases h : fs p <;> simp [h, fsRemove]

/-- The same pattern never creates a path. -/
theorem fsCondRemove_mono (fs : FileSys) (p q : String) (h : fs q = false) :
    (if fs p then fsRemove fs p else fs) q = false := by
  by_cases hp : fs p <;> simp [hp, fsRemove, h]

/-- If every image of the batch decodes and embeds to `f s`, the loop of
`embed_batch` returns the images mapped through `f`, in input order. -/
theorem embedBatchLoop_ok {Img F : Type} (srv : ColServer Img F)
    (f : String → List F) :
    ∀ images : List String, (∀ s ∈ images, embedOne srv s = .ok (f s)) →
      embedBatchLoop srv images = .ok (images.map f) := by
  intro images
  induction images with
  | nil => intro _; rfl
  | cons b64 rest ih =>
    intro h
    have hb := h b64 (by simp)
    unfold embedOne at hb
    cases hd : decode_image srv b64 with
    | error e =>
      rw [hd, exBindErr] at hb
      exact absurd hb (by simp)
    | ok img =>
      rw [hd, exBindOk] at hb
      have hrest := ih (fun s hs => h s (List.mem_cons_of_mem _ hs))
      simp only [embedBatchLoop, exBindDef, exPureDef, hd, hb, hrest, exBindOk,
        List.map_cons]

/-- If every image before `bad` decodes and embeds, and `bad` fails to
decode with exception `e`, the loop of `embed_batch` raises `e`, whatever
follows `bad`. -/
theorem embedBatchLoop_err {Img F : Type} (srv : ColServer Img F) (e : PyExc) :
    ∀ pre : List String, (∀ s ∈ pre, ∃ v, embedOne srv s = .ok v) →
      ∀ (bad : String) (post : List String), decode_image srv bad = .error e →
        embedBatchLoop srv (pre ++ bad :: post) = .error e := by
  intro pre
  induction pre with
  | nil =>
    intro _ bad post hbad
    simp only [List.nil_append, embedBatchLoop, exBindDef, hbad, exBindErr]
  | cons s rest ih =>
    intro h bad post hbad
    obtain ⟨v, hv⟩ := h s (by simp)
    unfold embedOne at hv
    cases hd : decode_image srv s with
    | error e0 =>
      rw [hd, exBindErr] at hv
      exact absurd hv (by simp)
    | ok img =>
      rw [hd, exBindOk] at hv
      have hrest := ih (fun t ht => h t (List.mem_cons_of_mem _ ht)) bad post hbad
      simp only [List.cons_append, embedBatchLoop, exBindDef, List.append_eq,
        hd, hv, hrest, exBindOk, exBindErr]

/-- The batches of the `embedding_func` loop concatenate back to the
input. -/
theorem embBatches_flatten (l : List String) : (embBatches l).flatten = l := by
  induction l using embBatches.induct with
  | case1 => rw [embBatches]; rfl
  | case2 t ts ih =>
    rw [embBatches, List.flatten_cons, ih]
    exact List.take_append_drop 32 (t :: ts)

theorem embBatches_ne_nil (l : List String) (h : l ≠ []) : embBatches l ≠ [] := by
  cases l with
  | nil => exact absurd rfl h
  | cons t ts => rw [embBatches]; simp

/-- Every batch of the `embedding_func` loop is nonempty with at most 32
texts. -/
theorem embBatches_size (l : List String) :
    ∀ b ∈ embBatches l, 0 < b.length ∧ b.length ≤ 32 := by
  induction l using embBatches.induct with
  | case1 => rw [embBatches]; intro b hb; cases hb
  | case2 t ts ih =>
    rw [embBatches]
    intro b hb
    cases hb with
    | head =>
      constructor
      · simp
      · simp [List.length_take]
    | tail _ hb => exact ih b hb

/-- Every batch of the `embedding_func` loop except possibly the last has
exactly 32 texts. -/
theorem embBatches_full (l : List String) :
    ∀ b ∈ (embBatches l).dropLast, b.length = 32 := by
  induction l using embBatches.induct with
  | case1 => rw [embBatches]; intro b hb; cases hb
  | case2 t ts ih =>
    rw [embBatches]
    by_cases hd : List.drop 32 (t :: ts) = []
    · rw [hd, embBatches]
      intro b hb
      cases hb
    · have hne := embBatches_ne_nil _ hd
      intro b hb
      rw [List.dropLast_cons_of_ne_nil hne] at hb
      cases hb with
      | head =>
        have hlong : 32 < (t :: ts).length := by
          by_contra hlen
          exact hd (List.drop_eq_nil_of_le (by omega))
        simp only [List.length_cons] at hlong
        simp only [List.length_take, List.length_cons]
        omega
      | tail _ hb => exact ih b hb

/-- If each batch dispatch returns `f` of the batch, `embedding_func`
returns the concatenation of the per-batch results. -/
theorem embedding_func_concat {E : Type}
    (dispatch : List String → Except String (List E)) :
    ∀ (texts : List String) (f : List String → List E),
      (∀ b ∈ embBatches texts, dispatch b = .ok (f b)) →
      embedding_func dispatch texts = .ok ((embBatches texts).map f).flatten := by
  intro texts
  induction texts using embedding_func.induct dispatch with
  | case1 =>
    intro f _
    rw [embedding_func, embBatches]
    rfl
  | case2 t ts ih =>
    intro f h
    have hhead : dispatch ((t :: ts).take 32) = .ok (f ((t :: ts).take 32)) := by
      apply h
      rw [embBatches]
      exact List.mem_cons_self _ _
    have htail := ih f (by
      intro b hb
      apply h
      rw [embBatches]
      exact List.mem_cons_of_mem _ hb)
    rw [embedding_func]
    simp only [exBindDef, exPureDef, hhead, htail, exBindOk]
    rw [embBatches, List.map_cons, List.flatten_cons]

/-- The `dim` expression of `embed_batch`
(`len(embeddings[0]) if embeddings else 0`) as a head function. -/
theorem dimHeadD {F : Type} (l : List (List F)) :
    (match l with
      | [] => 0
      | e0 :: _ => e0.length) = (l.headD []).length := by
  cases l <;> rfl

/-!
## The claims
-/

/-- Claim C1: over a batch in which every image decodes and embeds, and
with the model loaded, `embed_batch` returns exactly one embedding per
image, in input order (with `count` the batch size and `dim` the length of
the first embedding); if any image fails to decode (a `ValueError` from
`decode_image`), with every image before it processable, the whole batch
fails with `InvalidInput` carrying that error text, no vectors are
returned, and the images after the bad one are never processed (the result
does not depend on them). -/
theorem C1_embed_batch_order_and_fail_fast {Img F : Type}
    (srv : ColServer Img F) (hm : srv.modelSome = true) :
    (∀ (images : List String) (f : String → List F),
      (∀ s ∈ images, embedOne srv s = .ok (f s)) →
      embed_batch srv images =
        .ok { embeddings := images.map f
              count := images.length
              dim := ((images.map f).headD []).length }) ∧
    (∀ (pre : List String) (bad : String) (post : List String) (m : String),
      (∀ s ∈ pre, ∃ v, embedOne srv s = .ok v) →
      decode_image srv bad = .error (.valueError m) →
      embed_batch srv (pre ++ bad :: post) = .error (.invalidInput m) ∧
      embed_batch srv (pre ++ bad :: post) = embed_batch srv (pre ++ [bad])) := by
  constructor
  · intro images f h
    have hloop := embedBatchLoop_ok srv f images h
    simp only [embed_batch, hm, Bool.not_true, Bool.false_eq_true, if_false,
      hloop, Except.ok.injEq, EmbedBatchResponse.mk.injEq, dimHeadD]
    simp [List.length_map]
  · intro pre bad post m hpre hbad
    have h1 := embedBatchLoop_err srv (.valueError m) pre hpre bad post hbad
    have h2 := embedBatchLoop_err srv (.valueError m) pre hpre bad [] hbad
    constructor
    · simp only [embed_batch, hm, Bool.not_true, Bool.false_eq_true, if_false,
        h1, excToHttp]
    · simp only [embed_batch, hm, Bool.not_true, Bool.false_eq_true, if_false,
        h1, h2]

/-- Claim C1, instantiated: a two-image valid batch yields two vectors in
order; a batch whose second image is undecodable yields `InvalidInput` and
no vectors. -/
theorem C1_witness :
    embed_batch srvLoaded ["a", "b"] =
      .ok { embeddings := [[1, 2], [1, 2]], count := 2, dim := 2 } ∧
    embed_batch srvLoaded ["a", "bad", "c"] =
      .error (.invalidInput "Invalid image data: broken") := by
  constructor
  · have h := (C1_embed_batch_order_and_fail_fast srvLoaded rfl).1
      ["a", "b"] (fun _ => [1, 2]) (by intro s hs; fin_cases hs <;> rfl)
    simpa using h
  · have h := ((C1_embed_batch_order_and_fail_fast srvLoaded rfl).2
      ["a"] "bad" ["c"] "Invalid image data: broken"
      (by intro s hs; fin_cases hs; exact ⟨[1, 2], rfl⟩) rfl).1
    exact h

/-- Claim C2, counterexample: with the `model` handle present but the
`processor` handle absent (a startup where processor loading failed), the
health check reports `model_loaded = false`, yet `embed` and `embed_batch`
on a decodable image fail with `Internal` (HTTP 500), not
`ServiceUnavailable` (HTTP 503): the handlers only test `model is None`,
and the `RuntimeError` from `embed_image` is caught by the generic
`except Exception` clause. -/
theorem C2_counterexample :
    (health_check srvHalfLoaded "vidore/colqwen2-v1.0").model_loaded = false ∧
    embed srvHalfLoaded "img" = .error (.internal "Model not loaded") ∧
    embed_batch srvHalfLoaded ["img"] = .error (.internal "Model not loaded") :=
  ⟨rfl, rfl, rfl⟩

/-- Claim C2, amended: when the model handle is absent, `embed` and
`embed_batch` fail with `ServiceUnavailable` (503); but when the health
check reports `model_loaded = false` only because the processor handle is
absent (model present), `embed` and `embed_batch` on a decodable image
fail with `Internal` (500) instead. -/
theorem C2_degraded_mode_status_codes {Img F : Type} (name : String)
    (srv : ColServer Img F) :
    (srv.modelSome = false →
      (health_check srv name).model_loaded = false ∧
      (∀ img : String,
        embed srv img = .error (.serviceUnavailable "Model not loaded")) ∧
      (∀ imgs : List String,
        embed_batch srv imgs = .error (.serviceUnavailable "Model not loaded"))) ∧
    (srv.modelSome = true → srv.processorSome = false →
      (health_check srv name).model_loaded = false ∧
      (∀ (b64 : String) (img : Img), srv.decode b64 = .ok img →
        embed srv b64 = .error (.internal "Model not loaded")) ∧
      (∀ (b64 : String) (img : Img) (rest : List String),
        srv.decode b64 = .ok img →
        embed_batch srv (b64 :: rest) =
          .error (.internal "Model not loaded"))) := by
  constructor
  · intro hm
    refine ⟨by simp [health_check, hm], ?_, ?_⟩
    · intro img
      simp [embed, hm]
    · intro imgs
      simp [embed_batch, hm]
  · intro hm hp
    refine ⟨by simp [health_check, hm, hp], ?_, ?_⟩
    · intro b64 img hdec
      simp only [embed, hm, Bool.not_true, Bool.false_eq_true, if_false,
        decode_image, hdec, exBindOk, embed_image, hp, Bool.not_false,
        Bool.or_true, exBindErr]
      rfl
    · intro b64 img rest hdec
      simp only [embed_batch, hm, Bool.not_true, Bool.false_eq_true, if_false,
        embedBatchLoop, exBindDef, decode_image, hdec, exBindOk, embed_image,
        hp, Bool.not_false, Bool.or_true, exBindErr]
      rfl

/-- Claim C2 (amended), instantiated at a server with no model and at a
server with a model but no processor. -/
theorem C2_witness :
    embed srvUnloaded "img" = .error (.serviceUnavailable "Model not loaded") ∧
    embed srvHalfLoaded "good" = .error (.internal "Model not loaded") := by
  constructor
  · exact ((C2_degraded_mode_status_codes "m" srvUnloaded).1 rfl).2.1 "img"
  · exact ((C2_degraded_mode_status_codes "m" srvHalfLoaded).2 rfl rfl).2.1
      "good" () rfl

/-- Claim C3: for a tracked document, the background task first moves the
record to `processing` (with progress 0.1); if the ingestion call returns
normally the record ends `completed` with progress 1.0, and if it raises
with text `msg` the record ends `failed` with the error field set to
exactly that text (so the optional field is populated, and nonempty
whenever the exception text is). -/
theorem C3_process_document_lifecycle (ctx : RagCtx) (st : RagState)
    (doc_id : String) (rec : DocumentStatus)
    (h : st.processing_status doc_id = some rec) :
    processBegin st.processing_status doc_id doc_id =
      some { rec with status := "processing", progress := 1/10 } ∧
    (process_document ctx st doc_id .ok).processing_status doc_id =
      some { rec with status := "completed", progress := 1 } ∧
    (∀ msg : String,
      (process_document ctx st doc_id (.raise msg)).processing_status doc_id =
        some { rec with
          status := "failed"
          progress := 1/10
          error := some msg }) := by
  refine ⟨?_, ?_, ?_⟩
  · simp [processBegin, mapSet, h]
  · simp [process_document, processBegin, mapSet, h]
  · intro msg
    simp [process_document, processBegin, mapSet, h]

/-- Claim C3, instantiated on the one-document state: success ends
`completed`/1.0, an exception with text `"boom"` ends `failed` with
`error = some "boom"`. -/
theorem C3_witness :
    (process_document ctx0 stOne "d1" .ok).processing_status "d1" =
      some { recPending with status := "completed", progress := 1 } ∧
    (process_document ctx0 stOne "d1" (.raise "boom")).processing_status "d1" =
      some { recPending with
        status := "failed"
        progress := 1/10
        error := some "boom" } := by
  have h := C3_process_document_lifecycle ctx0 stOne "d1" recPending rfl
  exact ⟨h.2.1, h.2.2 "boom"⟩

/-- Claim C4: a successful upload with a fresh identifier registers a
`pending` record with progress 0.0 and the uploaded filename in the status
map, returns the identifier immediately with the processing task merely
scheduled (not run), and a status query against the returned state
observes `pending`. -/
theorem C4_upload_registers_pending (ctx : RagCtx) (st : RagState)
    (doc_id filename now : String)
    (hinit : ctx.ragInitialized = true)
    (hfresh : st.processing_status doc_id = none) :
    get_document_status st doc_id = .error (.notFound "Document not found") ∧
    (upload_document ctx st doc_id filename now).2.2 =
      .ok { document_id := doc_id, status := "processing" } ∧
    (upload_document ctx st doc_id filename now).1.processing_status doc_id =
      some { document_id := doc_id
             filename := filename
             status := "pending"
             progress := 0
             error := none
             created_at := now } ∧
    get_document_status (upload_document ctx st doc_id filename now).1 doc_id =
      .ok { document_id := doc_id
            filename := filename
            status := "pending"
            progress := 0
            error := none
            created_at := now } ∧
    (upload_document ctx st doc_id filename now).2.1 =
      [(doc_id, docDir ctx doc_id ++ "/" ++ filename)] := by
  refine ⟨?_, ?_, ?_, ?_, ?_⟩
  · simp [get_document_status, hfresh]
  · simp [upload_document, hinit]
  · simp [upload_document, hinit, mapInsert]
  · simp [get_document_status, upload_document, hinit, mapInsert]
  · simp [upload_document, hinit]

/-- Claim C4, instantiated on the empty state. -/
theorem C4_witness :
    (upload_document ctx0 stEmpty "d1" "a.pdf" "t0").2.2 =
      .ok { document_id := "d1", status := "processing" } ∧
    get_document_status (upload_document ctx0 stEmpty "d1" "a.pdf" "t0").1 "d1" =
      .ok { document_id := "d1"
            filename := "a.pdf"
            status := "pending"
            progress := 0
            error := none
            created_at := "t0" } := by
  have h := C4_upload_registers_pending ctx0 stEmpty "d1" "a.pdf" "t0" rfl rfl
  exact ⟨h.2.1, h.2.2.2.1⟩

/-- Claim C5: deleting an unknown id fails with `NotFound` and returns the
state untouched; deleting a known id reports `deleted`, leaves neither the
upload directory nor the working-directory output on disk, removes the
status record, and a subsequent status query fails with `NotFound`. -/
theorem C5_delete_document (ctx : RagCtx) (st : RagState) (doc_id : String) :
    (st.processing_status doc_id = none →
      delete_document ctx st doc_id =
        (st, .error (.notFound "Document not found"))) ∧
    (∀ rec : DocumentStatus, st.processing_status doc_id = some rec →
      (delete_document ctx st doc_id).2 = .ok { status := "deleted" } ∧
      (delete_document ctx st doc_id).1.fs (docDir ctx doc_id) = false ∧
      (delete_document ctx st doc_id).1.fs (outputDir ctx doc_id) = false ∧
      (delete_document ctx st doc_id).1.processing_status doc_id = none ∧
      get_document_status (delete_document ctx st doc_id).1 doc_id =
        .error (.notFound "Document not found")) := by
  constructor
  · intro h
    simp [delete_document, h]
  · intro rec h
    refine ⟨?_, ?_, ?_, ?_, ?_⟩
    · simp [delete_document, h]
    · simp only [delete_document, h]
      exact fsCondRemove_mono _ _ _ (fsCondRemove_self _ _)
    · simp only [delete_document, h]
      exact fsCondRemove_self _ _
    · simp [delete_document, h, mapErase]
    · simp [get_document_status, delete_document, h, mapErase]

/-- Claim C5, instantiated: deleting the unknown id `"dX"` from the
one-document state is `NotFound` with the state unchanged; deleting `"d1"`
removes record and directories and a subsequent status query is
`NotFound`. -/
theorem C5_witness :
    delete_document ctx0 stOne "dX" =
      (stOne, .error (.notFound "Document not found")) ∧
    (delete_document ctx0 stOne "d1").2 = .ok { status := "deleted" } ∧
    (delete_document ctx0 stOne "d1").1.fs "/data/documents/d1" = false ∧
    get_document_status (delete_document ctx0 stOne "d1").1 "d1" =
      .error (.notFound "Document not found") := by
  have hu := (C5_delete_document ctx0 stOne "dX").1 rfl
  have hk := (C5_delete_document ctx0 stOne "d1").2 recPending rfl
  exact ⟨hu, hk.1, hk.2.1, hk.2.2.2.2⟩

/-- Claim C6: every successful `query` response, multimodal or not,
whatever the external retrieval result, carries an empty `sources`
list. -/
theorem C6_query_sources_empty (env : RagQueryEnv) (ragInitialized : Bool)
    (req : QueryRequest) (elapsed : Rat) (resp : QueryResponse)
    (h : query env ragInitialized req elapsed = .ok resp) :
    resp.sources = [] := by
  unfold query at h
  split at h
  · cases h
  · split at h
    · rw [Except.ok.injEq] at h
      subst h
      rfl
    · cases h

/-- Claim C6, instantiated on the non-multimodal and the multimodal
paths. -/
theorem C6_witness :
    (∃ resp, query envQ true { query := "q" } 0 = .ok resp ∧
      resp.sources = []) ∧
    (∃ resp, query envQ true { query := "q", multimodal := true } 0 = .ok resp ∧
      resp.sources = []) := by
  constructor
  · exact ⟨{ answer := "ans"
             sources := []
             mode := "hybrid"
             processing_time := 0 }, rfl,
      C6_query_sources_empty envQ true { query := "q" } 0 _ rfl⟩
  · exact ⟨{ answer := "mmans"
             sources := []
             mode := "hybrid"
             processing_time := 0 }, rfl,
      C6_query_sources_empty envQ true { query := "q", multimodal := true } 0
        _ rfl⟩

/-- Claim C7: `embedding_func` cuts the input into consecutive batches —
each nonempty of at most 32 texts, all except possibly the last of exactly
32, concatenating back to the input — dispatches one request per batch in
order and returns the concatenation of the per-batch results; when every
dispatch returns one embedding per text the overall result has exactly one
embedding per input text, in input order. -/
theorem C7_embedding_func_batches :
    (∀ (E : Type) (dispatch : List String → Except String (List E))
        (texts : List String) (f : List String → List E),
      (∀ b ∈ embBatches texts, dispatch b = .ok (f b)) →
      embedding_func dispatch texts = .ok ((embBatches texts).map f).flatten) ∧
    (∀ (E : Type) (dispatch : List String → Except String (List E))
        (texts : List String) (g : String → E),
      (∀ b ∈ embBatches texts, dispatch b = .ok (b.map g)) →
      embedding_func dispatch texts = .ok (texts.map g) ∧
      (texts.map g).length = texts.length) ∧
    (∀ texts : List String, (embBatches texts).flatten = texts) ∧
    (∀ texts : List String, ∀ b ∈ (embBatches texts).dropLast, b.length = 32) ∧
    (∀ texts : List String, ∀ b ∈ embBatches texts,
      0 < b.length ∧ b.length ≤ 32) := by
  refine ⟨?_, ?_, embBatches_flatten, embBatches_full, embBatches_size⟩
  · intro E dispatch texts f hb
    exact embedding_func_concat dispatch texts f hb
  · intro E dispatch texts g hb
    have h := embedding_func_concat dispatch texts (fun b => b.map g) hb
    rw [← List.map_flatten, embBatches_flatten] at h
    exact ⟨h, List.length_map _ _⟩

/-- Claim C7, instantiated: a small batch through a one-embedding-per-text
dispatcher returns one embedding per input text. -/
theorem C7_witness :
    embedding_func dispatchConst ["a", "b", "c"] = .ok [7, 7, 7] := by
  have h := C7_embedding_func_batches.2.1 Nat dispatchConst ["a", "b", "c"]
    (fun _ => 7) (by intro b _; rfl)
  simpa using h.1

/-- Claim C8: the body a successful upload returns carries the literal
status `"processing"` while the record registered for the same document at
that moment has status `"pending"` — the returned field does not reflect
the stored state. -/
theorem C8_upload_status_literal (ctx : RagCtx) (st : RagState)
    (doc_id filename now : String) (hinit : ctx.ragInitialized = true) :
    ∃ rec : DocumentStatus,
      (upload_document ctx st doc_id filename now).1.processing_status doc_id =
        some rec ∧
      (upload_document ctx st doc_id filename now).2.2 =
        .ok { document_id := doc_id, status := "processing" } ∧
      rec.status = "pending" ∧
      "processing" ≠ "pending" := by
  refine ⟨{ document_id := doc_id
            filename := filename
            status := "pending"
            progress := 0
            error := none
            created_at := now }, ?_, ?_, rfl, ?_⟩
  · simp [upload_document, hinit, mapInsert]
  · simp [upload_document, hinit]
  · decide

/-- Claim C8, instantiated on the empty state. -/
theorem C8_witness :
    ∃ rec : DocumentStatus,
      (upload_document ctx0 stEmpty "d1" "a.pdf" "t0").1.processing_status "d1" =
        some rec ∧
      (upload_document ctx0 stEmpty "d1" "a.pdf" "t0").2.2 =
        .ok { document_id := "d1", status := "processing" } ∧
      rec.status = "pending" ∧
      "processing" ≠ "pending" :=
  C8_upload_status_literal ctx0 stEmpty "d1" "a.pdf" "t0" rfl

/-- Claim C9: with the model loaded, `embed_batch` on the empty batch
succeeds with no embeddings, `count = 0` and `dim = 0` — the `dim`
expression takes its `else 0` branch instead of indexing the empty
list. -/
theorem C9_embed_batch_empty {Img F : Type} (srv : ColServer Img F)
    (hm : srv.modelSome = true) :
    embed_batch srv [] =
      .ok { embeddings := ([] : List (List F))
            count := 0
            dim := 0 } := by
  simp [embed_batch, hm, embedBatchLoop]

/-- Claim C9, instantiated on the loaded server. -/
theorem C9_witness :
    embed_batch srvLoaded [] =
      .ok { embeddings := ([] : List (List Nat)), count := 0, dim := 0 } :=
  C9_embed_batch_empty srvLoaded rfl

/-- Claim C10: when processing fails, only the status and error fields
change relative to the record as of the start of processing: the final
record keeps progress 0.1 (neither 0.0 nor 1.0), and its identifier,
filename and creation time are those of the original record; records of
other documents are untouched. -/
theorem C10_failure_frame (ctx : RagCtx) (st : RagState) (doc_id : String)
    (rec : DocumentStatus) (msg : String)
    (h : st.processing_status doc_id = some rec) :
    (∃ r : DocumentStatus,
      (process_document ctx st doc_id (.raise msg)).processing_status doc_id =
        some r ∧
      r = { rec with status := "failed", progress := 1/10, error := some msg } ∧
      r.progress = 1/10 ∧ r.progress ≠ 0 ∧ r.progress ≠ 1 ∧
      r.document_id = rec.document_id ∧ r.filename = rec.filename ∧
      r.created_at = rec.created_at) ∧
    (∀ k : String, k ≠ doc_id →
      (process_document ctx st doc_id (.raise msg)).processing_status k =
        st.processing_status k) := by
  constructor
  · refine ⟨{ rec with
                status := "failed"
                progress := 1/10
                error := some msg }, ?_, rfl, rfl, by norm_num, by norm_num,
      rfl, rfl, rfl⟩
    simp [process_document, processBegin, mapSet, h]
  · intro k hk
    simp [process_document, processBegin, mapSet, h, hk]

/-- Claim C10, instantiated on the one-document state with a second tracked
record untouched. -/
theorem C10_witness :
    (∃ r : DocumentStatus,
      (process_document ctx0 stOne "d1" (.raise "boom")).processing_status "d1" =
        some r ∧
      r = { recPending with
            status := "failed"
            progress := 1/10
            error := some "boom" } ∧
      r.progress = 1/10 ∧ r.progress ≠ 0 ∧ r.progress ≠ 1 ∧
      r.document_id = recPending.document_id ∧
      r.filename = recPending.filename ∧
      r.created_at = recPending.created_at) ∧
    (process_document ctx0 stOne "d1" (.raise "boom")).processing_status "d2" =
      stOne.processing_status "d2" := by
  have h := C10_failure_frame ctx0 stOne "d1" recPending "boom" rfl
  exact ⟨h.1, h.2 "d2" (by decide)⟩

end LocalaiRag
